import Mathlib

/-!
Verification of the currency converter core (`src/Currency_Converter.py`)
against its natural-language specification.

The two core functions are pure arithmetic over floats; we embed them over
the exact rationals `ℚ`.  The inverse function additionally performs a UI
side effect (`st.error(...)`) on degenerate parameters; we make that effect
explicit by returning a record carrying both the numeric return value and a
flag recording whether the error message was displayed.
-/

namespace CurrencyConverter

/-- Embedding of `calculate_inr_from_usd` (source lines 6-25): given a USD
amount, deduct the percentage fee, then the fixed fee, then the tax
percentage, then multiply by the exchange rate. -/
def calculate_inr_from_usd
    (amount_usd paypal_fee_percent paypal_fixed_fee_usd
     tax_percent usd_to_inr_rate : ℚ) : ℚ :=
  let net_after_paypal_percent := amount_usd * (1 - paypal_fee_percent / 100)
  let net_after_paypal_fees := net_after_paypal_percent - paypal_fixed_fee_usd
  let net_after_tax_usd := net_after_paypal_fees * (1 - tax_percent / 100)
  let final_inr := net_after_tax_usd * usd_to_inr_rate
  final_inr

/-- Result of one run of `calculate_usd_for_target_inr`: the returned float
together with whether the `st.error` side effect fired. -/
structure InvRun where
  value : ℚ
  error_shown : Bool
  deriving Repr, DecidableEq

/-- Embedding of `calculate_usd_for_target_inr` (source lines 27-69) with the
`st.error` effect made explicit.  If `denominator == 0 or (1 - p) == 0` the
function displays an error and returns `0.0`; otherwise it returns
`((target_inr / denominator) + f) / (1 - p)` with no error. -/
def calculate_usd_for_target_inr_run
    (target_inr paypal_fee_percent paypal_fixed_fee_usd
     tax_percent usd_to_inr_rate : ℚ) : InvRun :=
  let p := paypal_fee_percent / 100
  let t := tax_percent / 100
  let R := usd_to_inr_rate
  let f := paypal_fixed_fee_usd
  let denominator := R * (1 - t)
  if denominator = 0 ∨ (1 - p) = 0 then
    { value := 0, error_shown := true }
  else
    { value := ((target_inr / denominator) + f) / (1 - p),
      error_shown := false }

/-- The caller-visible return value of `calculate_usd_for_target_inr`: the
Python function returns only this float; the error display is a side effect
invisible in the return value. -/
def calculate_usd_for_target_inr
    (target_inr paypal_fee_percent paypal_fixed_fee_usd
     tax_percent usd_to_inr_rate : ℚ) : ℚ :=
  (calculate_usd_for_target_inr_run target_inr paypal_fee_percent
    paypal_fixed_fee_usd tax_percent usd_to_inr_rate).value

/-- Division that fails (returns `none`) on a zero divisor, used to check
that the source never divides by zero. -/
def qdivChecked (a b : ℚ) : Option ℚ :=
  if b = 0 then none else some (a / b)

/-- Variant of `calculate_usd_for_target_inr` in which each `/` of the
success branch is the checked division `qdivChecked`, so that any division
by zero would surface as `none`. -/
def calculate_usd_for_target_inr_checked
    (target_inr paypal_fee_percent paypal_fixed_fee_usd
     tax_percent usd_to_inr_rate : ℚ) : Option ℚ :=
  let p := paypal_fee_percent / 100
  let t := tax_percent / 100
  let R := usd_to_inr_rate
  let f := paypal_fixed_fee_usd
  let denominator := R * (1 - t)
  if denominator = 0 ∨ (1 - p) = 0 then
    some 0
  else
    (qdivChecked target_inr denominator).bind fun q =>
      qdivChecked (q + f) (1 - p)

/-- Closed form of the forward conversion (helper shared by the proofs). -/
theorem calculate_inr_from_usd_eq
    (amount_usd p f t R : ℚ) :
    calculate_inr_from_usd amount_usd p f t R =
      ((amount_usd * (1 - p / 100)) - f) * (1 - t / 100) * R := rfl

/-- Value of the inverse conversion on the non-degenerate branch (helper
shared by the proofs). -/
theorem inverse_value_nondegenerate
    (target_inr p f t R : ℚ)
    (hden : R * (1 - t / 100) ≠ 0) (hfee : 1 - p / 100 ≠ 0) :
    calculate_usd_for_target_inr target_inr p f t R =
      ((target_inr / (R * (1 - t / 100))) + f) / (1 - p / 100) := by
  unfold calculate_usd_for_target_inr calculate_usd_for_target_inr_run
  simp only [if_neg (not_or.mpr ⟨hden, hfee⟩)]

/-- C2: for every input, `calculate_inr_from_usd` returns exactly
`((amountUSD * (1 - feePercent/100)) - fixedFee) * (1 - taxPercent/100) * exchangeRate`. -/
theorem forward_formula_exact
    (amount_usd p f t R : ℚ) :
    calculate_inr_from_usd amount_usd p f t R =
      ((amount_usd * (1 - p / 100)) - f) * (1 - t / 100) * R := rfl

/-- C7: `calculate_inr_from_usd` is total over all rational inputs, equal to
the unclamped formula everywhere (so in particular never clamped to zero),
and there is an input — fees exceeding the amount — on which it returns a
strictly negative result. -/
theorem forward_total_no_clamp :
    (∀ amount_usd p f t R : ℚ,
      calculate_inr_from_usd amount_usd p f t R =
        ((amount_usd * (1 - p / 100)) - f) * (1 - t / 100) * R) ∧
    calculate_inr_from_usd 1 0 5 0 82 < 0 := by
  refine ⟨fun _ _ _ _ _ => rfl, ?_⟩
  norm_num [calculate_inr_from_usd]

/-- C8: concrete forward case — `calculate_inr_from_usd 100 4.4 0.30 0.0 82.0`
equals exactly `7814.6` over exact rational arithmetic. -/
theorem forward_concrete_case1 :
    calculate_inr_from_usd 100 (22 / 5) (3 / 10) 0 82 = 78146 / 10 := by
  norm_num [calculate_inr_from_usd]

/-- C3: when `exchangeRate * (1 - taxPercent/100)` and `(1 - feePercent/100)`
are both nonzero, `calculate_usd_for_target_inr` returns exactly
`((targetINR / denominator) + fixedFee) / (1 - feePercent/100)`. -/
theorem inverse_formula_exact
    (target_inr p f t R : ℚ)
    (hden : R * (1 - t / 100) ≠ 0) (hfee : 1 - p / 100 ≠ 0) :
    calculate_usd_for_target_inr target_inr p f t R =
      ((target_inr / (R * (1 - t / 100))) + f) / (1 - p / 100) :=
  inverse_value_nondegenerate target_inr p f t R hden hfee

/-- Witness for `inverse_formula_exact` at the spec's concrete case 2:
target 10000, fee 4.4 %, fixed fee 0.30, tax 0 %, rate 82. -/
theorem inverse_formula_exact_witness :
    calculate_usd_for_target_inr 10000 (22 / 5) (3 / 10) 0 82 =
      ((10000 / ((82 : ℚ) * (1 - 0 / 100))) + 3 / 10) / (1 - (22 / 5) / 100) :=
  inverse_formula_exact 10000 (22 / 5) (3 / 10) 0 82
    (by norm_num) (by norm_num)

/-- C1: for every target and every parameter tuple with
`(1 - feePercent/100) ≠ 0` and `exchangeRate * (1 - taxPercent/100) ≠ 0`,
running the forward conversion on the inverse conversion's result returns
the target exactly: the two functions are exact algebraic inverses over the
non-degenerate domain. -/
theorem roundTrip_inverse
    (target_inr p f t R : ℚ)
    (hden : R * (1 - t / 100) ≠ 0) (hfee : 1 - p / 100 ≠ 0) :
    calculate_inr_from_usd
      (calculate_usd_for_target_inr target_inr p f t R) p f t R = target_inr := by
  rw [inverse_value_nondegenerate target_inr p f t R hden hfee,
    calculate_inr_from_usd_eq, div_mul_cancel₀ _ hfee, add_sub_cancel_right]
  have h : target_inr / (R * (1 - t / 100)) * (1 - t / 100) * R =
      target_inr / (R * (1 - t / 100)) * (R * (1 - t / 100)) := by ring
  rw [h, div_mul_cancel₀ _ hden]

/-- Witness for `roundTrip_inverse` at target 10000, fee 4.4 %, fixed fee
0.30, tax 0 %, rate 82. -/
theorem roundTrip_inverse_witness :
    calculate_inr_from_usd
      (calculate_usd_for_target_inr 10000 (22 / 5) (3 / 10) 0 82)
      (22 / 5) (3 / 10) 0 82 = 10000 :=
  roundTrip_inverse 10000 (22 / 5) (3 / 10) 0 82 (by norm_num) (by norm_num)

/-- C4: whenever `exchangeRate * (1 - taxPercent/100) = 0` or
`(1 - feePercent/100) = 0`, the inverse conversion displays the
InvalidParameters error and returns the fallback `0.0`, regardless of the
target and the remaining parameters. -/
theorem degenerate_fallback
    (target_inr p f t R : ℚ)
    (h : R * (1 - t / 100) = 0 ∨ 1 - p / 100 = 0) :
    calculate_usd_for_target_inr_run target_inr p f t R =
      { value := 0, error_shown := true } := by
  unfold calculate_usd_for_target_inr_run
  simp only [if_pos h]

/-- Witness for `degenerate_fallback` at the spec's concrete case 3:
fee 100 % makes `(1 - p)` zero. -/
theorem degenerate_fallback_witness :
    calculate_usd_for_target_inr_run 5000 100 (3 / 10) 0 82 =
      { value := 0, error_shown := true } :=
  degenerate_fallback 5000 100 (3 / 10) 0 82 (Or.inr (by norm_num))

/-- C5 counterexample: the Python function's return value carries no
degenerate flag — a degenerate call (fee 100 %) and a legitimately-zero
non-degenerate call (target 0, fixed fee 0) return the very same value
`0.0`, even though only the first displays the error. -/
theorem inverse_no_flag_in_return_cex :
    calculate_usd_for_target_inr 5000 100 (3 / 10) 0 82 =
        calculate_usd_for_target_inr 0 (22 / 5) 0 0 82 ∧
    (calculate_usd_for_target_inr_run 5000 100 (3 / 10) 0 82).error_shown = true ∧
    (calculate_usd_for_target_inr_run 0 (22 / 5) 0 0 82).error_shown = false := by
  norm_num [calculate_usd_for_target_inr, calculate_usd_for_target_inr_run]

/-- C5 amended: `calculate_usd_for_target_inr` returns only the numeric
value; the degeneracy information exists solely as the `st.error` side
effect, which fires exactly when `exchangeRate * (1 - taxPercent/100) = 0`
or `(1 - feePercent/100) = 0`, and is not part of the return value. -/
theorem inverse_return_and_effect
    (target_inr p f t R : ℚ) :
    calculate_usd_for_target_inr target_inr p f t R =
      (calculate_usd_for_target_inr_run target_inr p f t R).value ∧
    ((calculate_usd_for_target_inr_run target_inr p f t R).error_shown = true ↔
      R * (1 - t / 100) = 0 ∨ 1 - p / 100 = 0) := by
  refine ⟨rfl, ?_⟩
  simp only [calculate_usd_for_target_inr_run]
  by_cases h : R * (1 - t / 100) = 0 ∨ 1 - p / 100 = 0
  · rw [if_pos h]
    exact iff_of_true rfl h
  · rw [if_neg h]
    exact iff_of_false (by simp) h

/-- C6 counterexample: with the non-degenerate parameters
fee 0 %, fixed fee 0, tax 200 %, rate 82 — where `(1 - feePercent/100) > 0`
but `exchangeRate * (1 - taxPercent/100) < 0` — the forward conversion is
not increasing: it maps 0 to 0 and 1 to −82. -/
theorem forward_not_mono_cex :
    (82 : ℚ) * (1 - 200 / 100) ≠ 0 ∧ (0 : ℚ) < 1 - 0 / 100 ∧ (0 : ℚ) < 1 ∧
    ¬ calculate_inr_from_usd 0 0 0 200 82 < calculate_inr_from_usd 1 0 0 200 82 := by
  norm_num [calculate_inr_from_usd]

/-- C6 amended: for fixed parameters with `(1 - feePercent/100) > 0` and
`exchangeRate * (1 - taxPercent/100) > 0`, `calculate_inr_from_usd` is
strictly increasing in the USD amount. -/
theorem forward_strict_mono
    (p f t R a b : ℚ)
    (hfee : 0 < 1 - p / 100) (hden : 0 < R * (1 - t / 100)) (hab : a < b) :
    calculate_inr_from_usd a p f t R < calculate_inr_from_usd b p f t R := by
  rw [calculate_inr_from_usd_eq, calculate_inr_from_usd_eq]
  have h1 : 0 < (b - a) * ((1 - p / 100) * (R * (1 - t / 100))) :=
    mul_pos (sub_pos.mpr hab) (mul_pos hfee hden)
  have h2 : ((b * (1 - p / 100)) - f) * (1 - t / 100) * R -
      ((a * (1 - p / 100)) - f) * (1 - t / 100) * R =
      (b - a) * ((1 - p / 100) * (R * (1 - t / 100))) := by ring
  linarith

/-- Witness for `forward_strict_mono` at the default parameters with USD
amounts 100 < 200. -/
theorem forward_strict_mono_witness :
    calculate_inr_from_usd 100 (22 / 5) (3 / 10) 0 82 <
      calculate_inr_from_usd 200 (22 / 5) (3 / 10) 0 82 :=
  forward_strict_mono (22 / 5) (3 / 10) 0 82 100 200
    (by norm_num) (by norm_num) (by norm_num)

/-- C9: there is a non-degenerate input — target 0 with fixed fee 0 — on
which `calculate_usd_for_target_inr` returns exactly `0.0`, the same value
as the degenerate fallback, so the return value alone cannot distinguish
the two. -/
theorem sentinel_zero_ambiguity :
    ∃ target_inr p f t R : ℚ,
      (R * (1 - t / 100) ≠ 0 ∧ 1 - p / 100 ≠ 0) ∧
      calculate_usd_for_target_inr target_inr p f t R = 0 := by
  refine ⟨0, 0, 0, 0, 82, ⟨by norm_num, by norm_num⟩, ?_⟩
  norm_num [calculate_usd_for_target_inr, calculate_usd_for_target_inr_run]

/-- C10: the guard makes every division of the success branch a division by
a nonzero value — the checked-division variant never returns `none` and
agrees everywhere with the returned value, so the function is total and
never divides by zero. -/
theorem inverse_division_safe
    (target_inr p f t R : ℚ) :
    calculate_usd_for_target_inr_checked target_inr p f t R =
      some (calculate_usd_for_target_inr target_inr p f t R) := by
  simp only [calculate_usd_for_target_inr_checked, calculate_usd_for_target_inr,
    calculate_usd_for_target_inr_run, qdivChecked]
  by_cases h : R * (1 - t / 100) = 0 ∨ 1 - p / 100 = 0
  · rw [if_pos h, if_pos h]
  · push_neg at h
    obtain ⟨h1, h2⟩ := h
    simp only [if_neg (not_or.mpr ⟨h1, h2⟩), if_neg h1, if_neg h2, Option.some_bind]

end CurrencyConverter
